import Mathlib

/-!
Verification of the `src/users/api.js` module of the support-tools
front end.  The module is a set of thin wrappers around an authenticated
HTTP client.  We embed it shallowly:

* JSON payloads become the inductive `JsValue` (with a separate
  `undefined` value, as in JavaScript);
* the remote client becomes an explicit function from URL to
  `Except HttpError JsValue` (the client contract guarantees every
  failure carries `customAttributes` with an HTTP status and a raw
  response body);
* `async` functions returning/throwing become pure functions returning
  `Except`; functions that can never raise return a plain value;
* every function additionally returns the list of URLs it requested, in
  order, so that claims about which network calls are issued are
  statable;
* `console.log` (including the `JSON.parse` it wraps) is modelled as a
  no-op: it is diagnostic output only.
-/

namespace Api

/-- A JavaScript value as delivered by (or fed to) the HTTP client.
`undefined` is a distinct value, as in JavaScript. -/
inductive JsValue where
  | undefined : JsValue
  | null : JsValue
  | bool : Bool → JsValue
  | str : String → JsValue
  | num : Int → JsValue
  | arr : List JsValue → JsValue
  | obj : List (String × JsValue) → JsValue

/-- The `customAttributes` the authenticated HTTP client attaches to every
failure it raises: the HTTP status and the raw response body. -/
structure HttpError where
  httpErrorStatus : Nat
  httpErrorResponseData : String
deriving Repr, DecidableEq

/-- The normalized user-facing error shape produced throughout the module:
`{code, dismissible, text, type, topic}`. -/
structure ErrorDescriptor where
  code : Option String
  dismissible : Bool
  text : String
  type : String
  topic : String
deriving Repr, DecidableEq

/-- The remote GET client: maps a URL to a payload or a structured failure. -/
def Net : Type := String → Except HttpError JsValue

/-- JavaScript property access `v.name`: field of an object, `undefined`
otherwise (a missing key reads as `undefined`). -/
def jsGetField : JsValue → String → JsValue
  | .obj fields, name =>
      match fields.find? (fun p => p.1 == name) with
      | some p => p.2
      | none => .undefined
  | _, _ => .undefined

/-- JavaScript truthiness, used by `if (data.retirementDate)`. -/
def truthy : JsValue → Bool
  | .undefined => false
  | .null => false
  | .bool b => b
  | .str s => !s.isEmpty
  | .num n => n != 0
  | .arr _ => true
  | .obj _ => true

/-- `JsValue.null` test, used by `if (user !== null)`. -/
def isNull : JsValue → Bool
  | .null => true
  | _ => false

/-- Nonempty-array test: `Array.isArray(data) && data.length > 0`. -/
def isNonemptyArray : JsValue → Bool
  | .arr (_ :: _) => true
  | _ => false

mutual
/-- String conversion as performed by a JS template literal `${v}`. -/
def jsToString : JsValue → String
  | .undefined => "undefined"
  | .null => "null"
  | .bool b => if b then "true" else "false"
  | .str s => s
  | .num n => toString n
  | .arr xs => jsToStringList xs
  | .obj _ => "[object Object]"

/-- Array-to-string: elements joined by commas, null/undefined as empty. -/
def jsToStringList : List JsValue → String
  | [] => ""
  | [JsValue.undefined] => ""
  | [JsValue.null] => ""
  | [x] => jsToString x
  | JsValue.undefined :: x :: xs => "," ++ jsToStringList (x :: xs)
  | JsValue.null :: x :: xs => "," ++ jsToStringList (x :: xs)
  | x :: y :: xs => jsToString x ++ "," ++ jsToStringList (y :: xs)
end

/-- One snake_case key to camelCase, modelling the key transformation of
`camelCaseObject` from `@edx/frontend-platform` (external collaborator). -/
def camelCaseStr (s : String) : String :=
  match s.splitOn "_" with
  | [] => s
  | h :: t => h ++ String.join (t.map String.capitalize)

mutual
/-- `camelCaseObject` from `@edx/frontend-platform` (external collaborator):
recursively camelCases every object key. -/
def camelCaseObject : JsValue → JsValue
  | .obj fields => .obj (camelCaseFields fields)
  | .arr xs => .arr (camelCaseList xs)
  | v => v

def camelCaseList : List JsValue → List JsValue
  | [] => []
  | x :: xs => camelCaseObject x :: camelCaseList xs

def camelCaseFields : List (String × JsValue) → List (String × JsValue)
  | [] => []
  | (k, v) :: fs => (camelCaseStr k, camelCaseObject v) :: camelCaseFields fs
end

/-- `new Date(v)` interpolated into a template literal.  The JS runtime's
date rendering is abstracted as a computable rendering of the raw value;
no claim depends on its exact form. -/
def jsDateString (v : JsValue) : String :=
  "Date(" ++ jsToString v ++ ")"

/-! ### The two identifier patterns

`EMAIL_REGEX = ^[a-zA-Z0-9._%+-]+@[a-zA-Z0-9.-]+\.[a-zA-Z]{2,}$`
`USERNAME_REGEX = ^[\w.@_+-]+$`

Both are fully anchored, so `userIdentifier.match(...)` is a full-string
match.  We implement the matches directly: an email is local\@domain.tld
with the three character classes below (the dot before the TLD is
necessarily the last dot, since the TLD is alphabetic). -/

/-- Character class `[a-zA-Z0-9._%+-]` (email local part). -/
def isEmailLocalChar (c : Char) : Bool :=
  c.isAlpha || c.isDigit || c == '.' || c == '_' || c == '%' || c == '+' || c == '-'

/-- Character class `[a-zA-Z0-9.-]` (email domain). -/
def isEmailDomainChar (c : Char) : Bool :=
  c.isAlpha || c.isDigit || c == '.' || c == '-'

/-- Character class `[\w.@_+-]` (username); JS `\w` is `[A-Za-z0-9_]`. -/
def isUsernameChar (c : Char) : Bool :=
  c.isAlpha || c.isDigit || c == '_' || c == '.' || c == '@' || c == '+' || c == '-'

/-- Split a character list on a separator character (structural recursion,
so that concrete matches evaluate in the kernel). -/
def splitOnChar (c : Char) : List Char → List (List Char)
  | [] => [[]]
  | x :: xs =>
      match splitOnChar c xs with
      | [] => if x == c then [[], []] else [[x]]
      | y :: ys => if x == c then [] :: y :: ys else (x :: y) :: ys

/-- Join character lists with a separator character. -/
def joinWithChar (c : Char) : List (List Char) → List Char
  | [] => []
  | [x] => x
  | x :: y :: ys => x ++ c :: joinWithChar c (y :: ys)

/-- `userIdentifier.match(EMAIL_REGEX)` as a Boolean: the string is
`local@domain.tld` with nonempty `local` over the local class, nonempty
`domain` over the domain class, and an alphabetic `tld` of length ≥ 2. -/
def emailMatch (s : String) : Bool :=
  match splitOnChar '@' s.toList with
  | [localPart, domainPart] =>
      (!localPart.isEmpty) && localPart.all isEmailLocalChar &&
      (match (splitOnChar '.' domainPart).reverse with
       | tld :: restRev =>
           let dom := joinWithChar '.' restRev.reverse
           (!restRev.isEmpty) && (!dom.isEmpty) && dom.all isEmailDomainChar &&
           decide (tld.length ≥ 2) && tld.all Char.isAlpha
       | [] => false)
  | _ => false

/-- `userIdentifier.match(USERNAME_REGEX)` as a Boolean: nonempty, all
characters in the username class. -/
def usernameMatch (s : String) : Bool :=
  (!s.toList.isEmpty) && s.toList.all isUsernameChar

/-! ### URLs (built exactly as the string templates in the source) -/

def accountsUrl (lms : String) : String :=
  lms ++ "/api/user/v1/accounts"

def entitlementsUrl (lms username : String) : String :=
  lms ++ "/api/entitlements/v1/entitlements/?user=" ++ username

def enrollmentsUrl (lms username : String) : String :=
  lms ++ "/support/enrollment/" ++ username

def verificationStatusUrl (lms username : String) : String :=
  lms ++ "/api/user/v1/accounts/" ++ username ++ "/verification_status/"

def retirementUrl (lms username : String) : String :=
  lms ++ "/api/user/v1/accounts/" ++ username ++ "/retirement_information/"

def courseUrl (discovery courseUUID : String) : String :=
  discovery ++ "/api/v1/courses/" ++ courseUUID ++ "/"

/-! ### Single-resource lookups -/

/-- `getEntitlements(username)`: one GET, error propagated unchanged. -/
def getEntitlements (lms : String) (net : Net) (username : String) :
    Except HttpError JsValue × List String :=
  (net (entitlementsUrl lms username), [entitlementsUrl lms username])

/-- `getEnrollments(username)`: one GET, error propagated unchanged. -/
def getEnrollments (lms : String) (net : Net) (username : String) :
    Except HttpError JsValue × List String :=
  (net (enrollmentsUrl lms username), [enrollmentsUrl lms username])

/-- What `getUser` can throw: the bare `Error('Invalid Argument!')`, or the
caught HTTP failure re-thrown with a normalized `userError` attached. -/
inductive UserLookupError where
  | invalidArgument : UserLookupError
  | http : HttpError → ErrorDescriptor → UserLookupError

/-- The try/catch body of `getUser`: perform the GET on `url`; on success
return `Array.isArray(data) && data.length > 0 ? data[0] : data`; on
failure attach the 404 not-found descriptor (with `notFoundErrorText`) or
the generic danger descriptor, and re-throw. -/
def getUserFetch (net : Net) (url notFoundErrorText : String) :
    Except UserLookupError JsValue × List String :=
  match net url with
  | .ok data =>
      (.ok (match data with
            | .arr (x :: _) => x
            | d => d), [url])
  | .error e =>
      if e.httpErrorStatus == 404 then
        (.error (.http e
          { code := none, dismissible := true, text := notFoundErrorText,
            type := "error", topic := "general" }), [url])
      else
        (.error (.http e
          { code := none, dismissible := true,
            text := "There was an error loading this user\x27s data. Check the JavaScript console for detailed errors.",
            type := "danger", topic := "general" }), [url])

/-- `getUser(userIdentifier)`: classify the identifier (email pattern
first, then username pattern), build the matching query URL and not-found
text, and fetch; neither pattern matching throws `Invalid Argument!`
before any network call. -/
def getUser (lms : String) (net : Net) (userIdentifier : String) :
    Except UserLookupError JsValue × List String :=
  if emailMatch userIdentifier then
    getUserFetch net (accountsUrl lms ++ "?email=" ++ userIdentifier)
      ("We couldn\x27t find a user with the email \"" ++ userIdentifier ++ "\".")
  else if usernameMatch userIdentifier then
    getUserFetch net (accountsUrl lms ++ "/" ++ userIdentifier)
      ("We couldn\x27t find a user with the username \"" ++ userIdentifier ++ "\".")
  else
    (.error .invalidArgument, [])

/-- `getUserVerificationStatus(username)`: returns the payload on success
and a fixed sentinel object on failure (404 vs any other status); it never
raises. -/
def getUserVerificationStatus (lms : String) (net : Net) (username : String) :
    JsValue × List String :=
  match net (verificationStatusUrl lms username) with
  | .ok data => (data, [verificationStatusUrl lms username])
  | .error e =>
      if e.httpErrorStatus == 404 then
        (.obj [("status", .str "Not Available"),
               ("expirationDatetime", .str ""),
               ("isVerified", .bool false)], [verificationStatusUrl lms username])
      else
        (.obj [("status", .str "Error, status unknown"),
               ("expirationDatetime", .str ""),
               ("isVerified", .bool false)], [verificationStatusUrl lms username])

/-- An object carrying a `userError` field, as returned by `getRetirement`
(the success path returns a fresh `{userError}` object; the 404 path
returns the caught error with `userError` attached — only the field is
ever read). -/
structure UserErrorBox where
  userError : ErrorDescriptor
deriving Repr, DecidableEq

/-- `getRetirement(username)`: on success, synthesize a retirement
descriptor from the (camelCased) record; on a 404 failure, a not-found
descriptor.  For any other failure the catch block falls through, so the
function resolves to `undefined` — modelled as `none`. -/
def getRetirement (lms : String) (net : Net) (username : String) :
    Option UserErrorBox × List String :=
  match net (retirementUrl lms username) with
  | .ok data0 =>
      let data := camelCaseObject data0
      let retirementRequestDate := jsDateString (jsGetField data "retirementRequestDate")
      let errorString := "User with username " ++ username ++
        " has been retired. The user requested retirement on " ++
        retirementRequestDate ++ ". "
      let errorString :=
        if truthy (jsGetField data "retirementDate") then
          errorString ++ "They were retired on " ++
            jsDateString (jsGetField data "retirementDate")
        else
          errorString ++ "Information about their retirement date is not available"
      (some { userError :=
        { code := none, dismissible := true, text := errorString,
          type := "error", topic := "general" } }, [retirementUrl lms username])
  | .error e =>
      if e.httpErrorStatus == 404 then
        (some { userError :=
          { code := none, dismissible := true,
            text := "We couldn\x27t find a user with the username \"" ++ username ++ "\".",
            type := "error", topic := "general" } }, [retirementUrl lms username])
      else
        (none, [retirementUrl lms username])

/-! ### Aggregation workflow -/

/-- `getAllUserData`'s output record: accumulated error descriptors plus
whatever data was obtained (`none` models JS `null`). -/
structure AggregateResult where
  errors : List ErrorDescriptor
  user : Option JsValue
  entitlements : JsValue
  enrollments : JsValue
  verificationStatus : Option JsValue

/-- A failure escaping `getAllUserData`: a raw remote failure propagating
from the entitlements/enrollments fetches, the `TypeError` raised by
reading `.userError` of `undefined` when `getRetirement` resolved to
`undefined`, or the original user-lookup failure re-thrown. -/
inductive AggregateFailure where
  | uncaught : HttpError → AggregateFailure
  | typeError : AggregateFailure
  | rethrown : UserLookupError → AggregateFailure

/-- `getAllUserData(userIdentifier)`: try the user lookup; on failure run
the retirement fallback, push its descriptor (a `TypeError` if it
resolved to `undefined`), then push the original failure's `userError` or,
when there is none, re-throw the original failure.  On success (and a
non-null user) run the three dependent lookups keyed on `user.username`. -/
def getAllUserData (lms : String) (net : Net) (userIdentifier : String) :
    Except AggregateFailure AggregateResult × List String :=
  match getUser lms net userIdentifier with
  | (.error err, log1) =>
      match getRetirement lms net userIdentifier with
      | (none, log2) => (.error .typeError, log1 ++ log2)
      | (some retirement, log2) =>
          match err with
          | .http _e userErr =>
              (.ok { errors := [retirement.userError, userErr], user := none,
                     entitlements := .arr [], enrollments := .arr [],
                     verificationStatus := none }, log1 ++ log2)
          | .invalidArgument =>
              (.error (.rethrown .invalidArgument), log1 ++ log2)
  | (.ok data, log1) =>
      if isNull data then
        (.ok { errors := [], user := none, entitlements := .arr [],
               enrollments := .arr [], verificationStatus := none }, log1)
      else
        let username := jsToString (jsGetField data "username")
        match getEntitlements lms net username with
        | (.error e, log2) => (.error (.uncaught e), log1 ++ log2)
        | (.ok entitlements, log2) =>
            match getEnrollments lms net username with
            | (.error e, log3) => (.error (.uncaught e), log1 ++ log2 ++ log3)
            | (.ok enrollments, log3) =>
                let vs := getUserVerificationStatus lms net username
                (.ok { errors := [], user := some data,
                       entitlements := entitlements, enrollments := enrollments,
                       verificationStatus := some vs.1 },
                 log1 ++ log2 ++ log3 ++ vs.2)

/-! ### Course summary and mutation operations

Each of these resolves either with the remote payload or with an
`{errors: [descriptor]}` object; they never raise.  (In the source the
`httpErrorStatus === 400` test only gates a `console.log`, which we model
as a no-op, so the returned value does not depend on the status.) -/

/-- Resolving either with the remote payload (`return data`) or with an
`{errors: [...]}` object built locally. -/
inductive ApiResult where
  | payload : JsValue → ApiResult
  | errors : List ErrorDescriptor → ApiResult

/-- `getCourseData(courseUUID)`: payload on success; a course-summary
descriptor (404 vs other) wrapped in `{errors: [...]}` on failure. -/
def getCourseData (discovery : String) (net : Net) (courseUUID : String) :
    ApiResult × List String :=
  match net (courseUrl discovery courseUUID) with
  | .ok data => (.payload data, [courseUrl discovery courseUUID])
  | .error e =>
      if e.httpErrorStatus == 404 then
        (.errors [
          { code := none, dismissible := true,
            text := "We couldn\x27t find summary data for this Course \"" ++ courseUUID ++ "\".",
            type := "error", topic := "course-summary" }], [courseUrl discovery courseUUID])
      else
        (.errors [
          { code := none, dismissible := true,
            text := "Error finding summary data for this Course \"" ++ courseUUID ++ "\".",
            type := "danger", topic := "course-summary" }], [courseUrl discovery courseUUID])

/-- The remote PATCH/POST client: URL and body to payload or failure. -/
def NetSend : Type := String → JsValue → Except HttpError JsValue

def patchEntitlementUrl (lms uuid : String) : String :=
  lms ++ "/api/entitlements/v1/entitlements/" ++ uuid ++ "/"

/-- The PATCH body `{expired_at: null, support_details: [{unenrolled_run, action, comments}]}`. -/
def patchEntitlementBody (action unenrolledRun comments : JsValue) : JsValue :=
  .obj [("expired_at", .null),
        ("support_details", .arr [.obj [("unenrolled_run", unenrolledRun),
                                        ("action", action),
                                        ("comments", comments)]])]

/-- `patchEntitlement({uuid, action, unenrolledRun, comments})`: payload on
success; on any failure, `{errors: [entitlements danger descriptor]}`. -/
def patchEntitlement (lms : String) (send : NetSend)
    (uuid : String) (action unenrolledRun comments : JsValue) : ApiResult :=
  match send (patchEntitlementUrl lms uuid)
        (patchEntitlementBody action unenrolledRun comments) with
  | .ok data => .payload data
  | .error _ =>
      .errors [
        { code := none, dismissible := true,
          text := "There was an error submitting this entitlement. Check the JavaScript console for detailed errors.",
          type := "danger", topic := "entitlements" }]

def postEntitlementUrl (lms : String) : String :=
  lms ++ "/api/entitlements/v1/entitlements/"

/-- The POST body `{course_uuid, user, mode, refund_locked: true, support_details: [{action, comments}]}`. -/
def postEntitlementBody (user courseUuid mode action comments : JsValue) : JsValue :=
  .obj [("course_uuid", courseUuid), ("user", user), ("mode", mode),
        ("refund_locked", .bool true),
        ("support_details", .arr [.obj [("action", action), ("comments", comments)]])]

/-- `postEntitlement({user, courseUuid, mode, action, comments})`: payload
on success; on any failure, `{errors: [entitlements danger descriptor]}`. -/
def postEntitlement (lms : String) (send : NetSend)
    (user courseUuid mode action comments : JsValue) : ApiResult :=
  match send (postEntitlementUrl lms)
        (postEntitlementBody user courseUuid mode action comments) with
  | .ok data => .payload data
  | .error _ =>
      .errors [
        { code := none, dismissible := true,
          text := "There was an error submitting this entitlement. Check the JavaScript console for detailed errors.",
          type := "danger", topic := "entitlements" }]

def postEnrollmentChangeUrl (lms user : String) : String :=
  lms ++ "/support/enrollment/" ++ user

/-- The POST body `{course_id, new_mode, old_mode, reason}`. -/
def postEnrollmentChangeBody (courseID newMode oldMode reason : JsValue) : JsValue :=
  .obj [("course_id", courseID), ("new_mode", newMode),
        ("old_mode", oldMode), ("reason", reason)]

/-- `postEnrollmentChange({user, courseID, newMode, oldMode, reason})`:
payload on success; on any failure, `{errors: [descriptor]}` with topic
`enrollments` (its text still speaks of "this entitlement"). -/
def postEnrollmentChange (lms : String) (send : NetSend)
    (user : String) (courseID newMode oldMode reason : JsValue) : ApiResult :=
  match send (postEnrollmentChangeUrl lms user)
        (postEnrollmentChangeBody courseID newMode oldMode reason) with
  | .ok data => .payload data
  | .error _ =>
      .errors [
        { code := none, dismissible := true,
          text := "There was an error submitting this entitlement. Check the JavaScript console for detailed errors.",
          type := "danger", topic := "enrollments" }]

/-! ### Descriptor extraction and the module-wide descriptor invariant -/

/-- The descriptors carried by a `getUser` outcome. -/
def lookupErrorDescriptors : Except UserLookupError JsValue → List ErrorDescriptor
  | .error (.http _ d) => [d]
  | _ => []

/-- The descriptors carried by a `getRetirement` outcome. -/
def retirementDescriptors : Option UserErrorBox → List ErrorDescriptor
  | some box => [box.userError]
  | none => []

/-- The descriptors carried by an `ApiResult`. -/
def apiResultDescriptors : ApiResult → List ErrorDescriptor
  | .errors es => es
  | .payload _ => []

/-- The module-wide descriptor invariant: `code` is null, `dismissible` is
true, `type` is a known severity and `topic` a known subsystem. -/
def descriptorOk (d : ErrorDescriptor) : Bool :=
  d.code.isNone && d.dismissible &&
  (d.type == "error" || d.type == "danger") &&
  (d.topic == "general" || d.topic == "entitlements" ||
   d.topic == "enrollments" || d.topic == "course-summary")

/-! ## Claims -/

/-- Claim C8: an identifier matching neither the email pattern nor the
username pattern makes `getUser` fail with the invalid-argument error and
issue no network request: the outcome is the invalid-argument failure with
an empty request log, for every network. -/
theorem getUser_invalid_identifier_no_network (lms : String) (net : Net)
    (userIdentifier : String)
    (he : emailMatch userIdentifier = false)
    (hu : usernameMatch userIdentifier = false) :
    getUser lms net userIdentifier = (.error .invalidArgument, []) := by
  simp [getUser, he, hu]

theorem getUser_invalid_identifier_no_network_witness :
    emailMatch "user name" = false ∧ usernameMatch "user name" = false ∧
    getUser "L" (fun _ => .ok .null) "user name" = (.error .invalidArgument, []) :=
  ⟨by decide, by decide,
   getUser_invalid_identifier_no_network "L" (fun _ => .ok .null) "user name"
     (by decide) (by decide)⟩

/-- Claim C7: `getUserVerificationStatus` never raises on a failed remote
call: a 404 resolves to exactly the `Not Available` sentinel and any other
failure to exactly the `Error, status unknown` sentinel. -/
theorem getUserVerificationStatus_failure_sentinels (lms : String) (net : Net)
    (username : String) (e : HttpError)
    (h : net (verificationStatusUrl lms username) = .error e) :
    (e.httpErrorStatus = 404 →
      (getUserVerificationStatus lms net username).1 =
        .obj [("status", .str "Not Available"),
              ("expirationDatetime", .str ""),
              ("isVerified", .bool false)]) ∧
    (e.httpErrorStatus ≠ 404 →
      (getUserVerificationStatus lms net username).1 =
        .obj [("status", .str "Error, status unknown"),
              ("expirationDatetime", .str ""),
              ("isVerified", .bool false)]) := by
  constructor <;> intro h4 <;> simp [getUserVerificationStatus, h, h4]

def netVs404 : Net := fun _ =>
  .error { httpErrorStatus := 404, httpErrorResponseData := "" }

def netVs500 : Net := fun _ =>
  .error { httpErrorStatus := 500, httpErrorResponseData := "" }

theorem getUserVerificationStatus_failure_sentinels_witness :
    (getUserVerificationStatus "L" netVs404 "bob").1 =
      .obj [("status", .str "Not Available"),
            ("expirationDatetime", .str ""),
            ("isVerified", .bool false)] ∧
    (getUserVerificationStatus "L" netVs500 "bob").1 =
      .obj [("status", .str "Error, status unknown"),
            ("expirationDatetime", .str ""),
            ("isVerified", .bool false)] :=
  ⟨(getUserVerificationStatus_failure_sentinels "L" netVs404 "bob"
      { httpErrorStatus := 404, httpErrorResponseData := "" } rfl).1 rfl,
   (getUserVerificationStatus_failure_sentinels "L" netVs500 "bob"
      { httpErrorStatus := 500, httpErrorResponseData := "" } rfl).2 (by decide)⟩

/-- Claim C3 (amended): a non-404 failure of the retirement fetch does not
propagate out of `getRetirement`: the catch block falls through, so the
failure is swallowed and the function resolves to `undefined` (carrying no
descriptor). -/
theorem getRetirement_non404_swallowed (lms : String) (net : Net)
    (username : String) (e : HttpError)
    (h : net (retirementUrl lms username) = .error e)
    (h404 : e.httpErrorStatus ≠ 404) :
    getRetirement lms net username = (none, [retirementUrl lms username]) := by
  simp [getRetirement, h, h404]

def netRet500 : Net := fun _ =>
  .error { httpErrorStatus := 500, httpErrorResponseData := "" }

theorem getRetirement_non404_swallowed_witness :
    getRetirement "L" netRet500 "bob" = (none, [retirementUrl "L" "bob"]) :=
  getRetirement_non404_swallowed "L" netRet500 "bob"
    { httpErrorStatus := 500, httpErrorResponseData := "" } rfl (by decide)

def netRet403 : Net := fun _ =>
  .error { httpErrorStatus := 403, httpErrorResponseData := "" }

/-- Claim C3 counterexample: under a remote that fails the retirement fetch
with a 403, `getRetirement` does not propagate the failure uncaught — it
resolves, with `undefined` (`none`); the claimed propagation does not
happen. -/
theorem getRetirement_403_resolves_cex :
    netRet403 (retirementUrl "L" "bob") =
      .error { httpErrorStatus := 403, httpErrorResponseData := "" } ∧
    getRetirement "L" netRet403 "bob" = (none, [retirementUrl "L" "bob"]) :=
  ⟨rfl, rfl⟩

/-- The try/catch body of `getUser` always performs exactly one GET on its
URL. -/
theorem getUserFetch_log (net : Net) (url text : String) :
    (getUserFetch net url text).2 = [url] := by
  unfold getUserFetch
  rcases h : net url with e | v
  · by_cases h4 : e.httpErrorStatus = 404 <;> simp [h4]
  · rfl

/-- Success path of the `getUser` fetch: a nonempty array payload yields
its first element. -/
theorem getUserFetch_ok_head (net : Net) (url text : String) (x : JsValue)
    (xs : List JsValue) (h : net url = .ok (.arr (x :: xs))) :
    (getUserFetch net url text).1 = .ok x := by
  simp [getUserFetch, h]

/-- Success path of the `getUser` fetch: a payload that is not a nonempty
array is returned unchanged. -/
theorem getUserFetch_ok_passthrough (net : Net) (url text : String)
    (d : JsValue) (h : net url = .ok d) (hd : isNonemptyArray d = false) :
    (getUserFetch net url text).1 = .ok d := by
  simp only [getUserFetch, h]
  cases d with
  | arr xs =>
      cases xs with
      | nil => rfl
      | cons y ys => simp [isNonemptyArray] at hd
  | undefined => rfl
  | null => rfl
  | bool b => rfl
  | str s => rfl
  | num n => rfl
  | obj fs => rfl

/-- Claim C4 (amended): for every successful response payload of the
account endpoint, `getUser` returns the first element whenever the payload
is a **nonempty** array, and returns the whole payload unchanged otherwise
— including an empty array, which is returned itself (the source guards
with `data.length > 0`). -/
theorem getUser_array_unwrap (lms : String) (net : Net)
    (userIdentifier url : String)
    (hlog : (getUser lms net userIdentifier).2 = [url]) :
    (∀ x xs, net url = .ok (.arr (x :: xs)) →
      (getUser lms net userIdentifier).1 = .ok x) ∧
    (∀ d, net url = .ok d → isNonemptyArray d = false →
      (getUser lms net userIdentifier).1 = .ok d) := by
  by_cases he : emailMatch userIdentifier = true
  · simp only [getUser, he, if_true] at hlog ⊢
    rw [getUserFetch_log] at hlog
    injection hlog with h1 _
    subst h1
    exact ⟨fun x xs h => getUserFetch_ok_head net _ _ x xs h,
           fun d h hd => getUserFetch_ok_passthrough net _ _ d h hd⟩
  · by_cases hu : usernameMatch userIdentifier = true
    · simp only [getUser, he, hu, if_true, if_false, Bool.false_eq_true] at hlog ⊢
      rw [getUserFetch_log] at hlog
      injection hlog with h1 _
      subst h1
      exact ⟨fun x xs h => getUserFetch_ok_head net _ _ x xs h,
             fun d h hd => getUserFetch_ok_passthrough net _ _ d h hd⟩
    · simp [getUser, he, hu] at hlog

def netC4w : Net := fun url =>
  if url == accountsUrl "L" ++ "/alice" then
    .ok (.arr [.str "first", .str "second"])
  else .ok .null

theorem getUser_array_unwrap_witness :
    (getUser "L" netC4w "alice").1 = .ok (.str "first") :=
  (getUser_array_unwrap "L" netC4w "alice" (accountsUrl "L" ++ "/alice")
    rfl).1 (.str "first") [.str "second"] rfl

def netC4c : Net := fun _ => .ok (.arr [])

/-- Claim C4 counterexample: for the valid identifier `alice` and an
account payload that **is** an array but is empty, `getUser` returns the
whole empty array — there is no first element to return, refuting
"returns the first element of the payload whenever the payload is an
array". -/
theorem getUser_empty_array_cex :
    netC4c (accountsUrl "L" ++ "/alice") = .ok (.arr []) ∧
    (getUser "L" netC4c "alice").1 = .ok (.arr []) :=
  ⟨rfl, rfl⟩

/-- Claim C6: every identifier matching the email pattern — even one that
also matches the username pattern, the email pattern being tested first —
is looked up through the email-filtered query `?email={identifier}`, and a
404 on that query yields a failure whose descriptor text contains the
literal email. -/
theorem getUser_email_precedence_404_text (lms : String) (net : Net)
    (userIdentifier : String) (he : emailMatch userIdentifier = true) :
    (getUser lms net userIdentifier).2 =
      [accountsUrl lms ++ "?email=" ++ userIdentifier] ∧
    (∀ e, net (accountsUrl lms ++ "?email=" ++ userIdentifier) = .error e →
      e.httpErrorStatus = 404 →
      ∃ d, (getUser lms net userIdentifier).1 = .error (.http e d) ∧
        ∃ pre post, d.text = pre ++ userIdentifier ++ post) := by
  constructor
  · simp only [getUser, he, if_true]
    exact getUserFetch_log net _ _
  · intro e h h404
    have hres : (getUser lms net userIdentifier).1 = .error (.http e
        { code := none, dismissible := true,
          text := "We couldn\x27t find a user with the email \"" ++ userIdentifier ++ "\".",
          type := "error", topic := "general" }) := by
      simp [getUser, he, getUserFetch, h, h404]
    exact ⟨_, hres, "We couldn\x27t find a user with the email \"", "\".", rfl⟩

def netC6w : Net := fun _ =>
  .error { httpErrorStatus := 404, httpErrorResponseData := "" }

theorem getUser_email_precedence_404_text_witness :
    emailMatch "a@b.co" = true ∧
    (getUser "L" netC6w "a@b.co").2 = [accountsUrl "L" ++ "?email=" ++ "a@b.co"] ∧
    ∃ d, (getUser "L" netC6w "a@b.co").1 =
        .error (.http { httpErrorStatus := 404, httpErrorResponseData := "" } d) ∧
      ∃ pre post, d.text = pre ++ "a@b.co" ++ post :=
  ⟨by decide,
   (getUser_email_precedence_404_text "L" netC6w "a@b.co" (by decide)).1,
   (getUser_email_precedence_404_text "L" netC6w "a@b.co" (by decide)).2
     { httpErrorStatus := 404, httpErrorResponseData := "" } rfl rfl⟩

/-- Claim C1 (amended): when the primary user lookup fails with a 404 and
the retirement fallback resolves to a value, `getAllUserData` returns an
AggregateResult whose errors are exactly the retirement descriptor
followed by the 404's not-found descriptor, with `user` null,
`entitlements` and `enrollments` empty and `verificationStatus` null.
(When the retirement fetch instead fails with a non-404 status the
workflow raises a TypeError rather than returning — see the
counterexample.) -/
theorem getAllUserData_user404_two_errors (lms : String) (net : Net)
    (userIdentifier : String) (e : HttpError) (d : ErrorDescriptor)
    (r : UserErrorBox) (log1 log2 : List String)
    (hu : getUser lms net userIdentifier = (.error (.http e d), log1))
    (h404 : e.httpErrorStatus = 404)
    (hr : getRetirement lms net userIdentifier = (some r, log2)) :
    getAllUserData lms net userIdentifier =
      (.ok { errors := [r.userError, d], user := none, entitlements := .arr [],
             enrollments := .arr [], verificationStatus := none },
       log1 ++ log2) := by
  simp [getAllUserData, hu, hr]

def netC1w : Net := fun url =>
  if url == accountsUrl "L" ++ "/alice" then
    .error { httpErrorStatus := 404, httpErrorResponseData := "" }
  else if url == retirementUrl "L" "alice" then .ok (.obj [])
  else .ok .null

theorem getAllUserData_user404_two_errors_witness :
    getAllUserData "L" netC1w "alice" =
      (.ok { errors := [
               { code := none, dismissible := true,
                 text := "User with username alice has been retired. The user requested retirement on Date(undefined). Information about their retirement date is not available",
                 type := "error", topic := "general" },
               { code := none, dismissible := true,
                 text := "We couldn\x27t find a user with the username \"alice\".",
                 type := "error", topic := "general" }],
             user := none, entitlements := .arr [], enrollments := .arr [],
             verificationStatus := none },
       [accountsUrl "L" ++ "/alice"] ++ [retirementUrl "L" "alice"]) :=
  getAllUserData_user404_two_errors "L" netC1w "alice"
    { httpErrorStatus := 404, httpErrorResponseData := "" }
    { code := none, dismissible := true,
      text := "We couldn\x27t find a user with the username \"alice\".",
      type := "error", topic := "general" }
    { userError :=
      { code := none, dismissible := true,
        text := "User with username alice has been retired. The user requested retirement on Date(undefined). Information about their retirement date is not available",
        type := "error", topic := "general" } }
    [accountsUrl "L" ++ "/alice"] [retirementUrl "L" "alice"] rfl rfl rfl

def netC1c : Net := fun url =>
  if url == accountsUrl "L" ++ "/alice" then
    .error { httpErrorStatus := 404, httpErrorResponseData := "" }
  else .error { httpErrorStatus := 500, httpErrorResponseData := "" }

/-- Claim C1 counterexample: the primary lookup of `alice` fails with a
404, yet `getAllUserData` does not return the promised two-descriptor
AggregateResult: the retirement fetch fails with a 500, `getRetirement`
resolves to `undefined`, and reading `.userError` of it raises a
TypeError that aborts the workflow. -/
theorem getAllUserData_user404_retirement_crash_cex :
    (getUser "L" netC1c "alice").1 =
      .error (.http { httpErrorStatus := 404, httpErrorResponseData := "" }
        { code := none, dismissible := true,
          text := "We couldn\x27t find a user with the username \"alice\".",
          type := "error", topic := "general" }) ∧
    (getAllUserData "L" netC1c "alice").1 = .error .typeError :=
  ⟨rfl, rfl⟩

/-- Claim C2 (amended): whenever the primary user lookup fails, the
retirement fallback is invoked unconditionally (one GET on the retirement
URL, appended to the request log).  When it resolves to a value, its
descriptor is appended first; then, if the original failure carries a
normalized `userError`, that is appended too and the workflow returns
normally, otherwise the original failure is re-raised, aborting the
workflow.  When the retirement fallback instead resolves to `undefined`
(its fetch failed with a non-404 status), the workflow raises a TypeError
while reading the missing descriptor, so nothing is appended and the
original failure is lost. -/
theorem getAllUserData_fallback_behaviour (lms : String) (net : Net)
    (userIdentifier : String) :
    ((getRetirement lms net userIdentifier).2 =
      [retirementUrl lms userIdentifier]) ∧
    (∀ err log1, getUser lms net userIdentifier = (.error err, log1) →
      (getAllUserData lms net userIdentifier).2 =
        log1 ++ (getRetirement lms net userIdentifier).2) ∧
    (∀ e d log1 r log2,
      getUser lms net userIdentifier = (.error (.http e d), log1) →
      getRetirement lms net userIdentifier = (some r, log2) →
      getAllUserData lms net userIdentifier =
        (.ok { errors := [r.userError, d], user := none,
               entitlements := .arr [], enrollments := .arr [],
               verificationStatus := none }, log1 ++ log2)) ∧
    (∀ log1 r log2,
      getUser lms net userIdentifier = (.error .invalidArgument, log1) →
      getRetirement lms net userIdentifier = (some r, log2) →
      getAllUserData lms net userIdentifier =
        (.error (.rethrown .invalidArgument), log1 ++ log2)) ∧
    (∀ err log1 log2,
      getUser lms net userIdentifier = (.error err, log1) →
      getRetirement lms net userIdentifier = (none, log2) →
      getAllUserData lms net userIdentifier =
        (.error .typeError, log1 ++ log2)) := by
  refine ⟨?_, ?_, ?_, ?_, ?_⟩
  · unfold getRetirement
    rcases h : net (retirementUrl lms userIdentifier) with e | v
    · by_cases h4 : e.httpErrorStatus = 404 <;> simp [h4]
    · rfl
  · intro err log1 hu
    rcases hr : getRetirement lms net userIdentifier with ⟨ro, log2⟩
    cases ro with
    | none => simp [getAllUserData, hu, hr]
    | some r =>
        cases err with
        | invalidArgument => simp [getAllUserData, hu, hr]
        | http e d => simp [getAllUserData, hu, hr]
  · intro e d log1 r log2 hu hr
    simp [getAllUserData, hu, hr]
  · intro log1 r log2 hu hr
    simp [getAllUserData, hu, hr]
  · intro err log1 log2 hu hr
    simp [getAllUserData, hu, hr]

def netC2w : Net := fun url =>
  if url == accountsUrl "L" ++ "/bob" then
    .error { httpErrorStatus := 500, httpErrorResponseData := "" }
  else if url == retirementUrl "L" "bob" then
    .error { httpErrorStatus := 404, httpErrorResponseData := "" }
  else .ok .null

theorem getAllUserData_fallback_behaviour_witness :
    getAllUserData "L" netC2w "bob" =
      (.ok { errors := [
               { code := none, dismissible := true,
                 text := "We couldn\x27t find a user with the username \"bob\".",
                 type := "error", topic := "general" },
               { code := none, dismissible := true,
                 text := "There was an error loading this user\x27s data. Check the JavaScript console for detailed errors.",
                 type := "danger", topic := "general" }],
             user := none, entitlements := .arr [], enrollments := .arr [],
             verificationStatus := none },
       [accountsUrl "L" ++ "/bob"] ++ [retirementUrl "L" "bob"]) :=
  (getAllUserData_fallback_behaviour "L" netC2w "bob").2.2.1
    { httpErrorStatus := 500, httpErrorResponseData := "" }
    { code := none, dismissible := true,
      text := "There was an error loading this user\x27s data. Check the JavaScript console for detailed errors.",
      type := "danger", topic := "general" }
    [accountsUrl "L" ++ "/bob"]
    { userError :=
      { code := none, dismissible := true,
        text := "We couldn\x27t find a user with the username \"bob\".",
        type := "error", topic := "general" } }
    [retirementUrl "L" "bob"] rfl rfl

def netC2c : Net := fun url =>
  if url == accountsUrl "L" ++ "/bob" then
    .error { httpErrorStatus := 500, httpErrorResponseData := "" }
  else .error { httpErrorStatus := 502, httpErrorResponseData := "" }

/-- Claim C2 counterexample: the primary lookup of `bob` fails (500) and
its failure does carry a normalized `userError` descriptor, yet no
descriptor is appended and the workflow does not return normally: the
retirement fetch fails with a 502, `getRetirement` resolves to
`undefined`, and the workflow aborts with a TypeError. -/
theorem getAllUserData_fallback_typeError_cex :
    (getUser "L" netC2c "bob").1 =
      .error (.http { httpErrorStatus := 500, httpErrorResponseData := "" }
        { code := none, dismissible := true,
          text := "There was an error loading this user\x27s data. Check the JavaScript console for detailed errors.",
          type := "danger", topic := "general" }) ∧
    (getAllUserData "L" netC2c "bob").1 = .error .typeError :=
  ⟨rfl, rfl⟩

/-- Claim C5: when the user lookup succeeds with `{username: "alice"}` and
the dependent entitlements, enrollments and verification lookups resolve,
`getAllUserData` issues exactly the three dependent GETs keyed on `alice`
(in that order, after the user lookup) and returns empty errors with all
four data fields populated from the lookups' results. -/
theorem getAllUserData_success_three_lookups (lms : String) (net : Net)
    (userIdentifier : String) (log1 : List String) (ents enrs vs : JsValue)
    (hu : getUser lms net userIdentifier =
      (.ok (.obj [("username", .str "alice")]), log1))
    (hent : net (entitlementsUrl lms "alice") = .ok ents)
    (henr : net (enrollmentsUrl lms "alice") = .ok enrs)
    (hver : net (verificationStatusUrl lms "alice") = .ok vs) :
    getAllUserData lms net userIdentifier =
      (.ok { errors := [], user := some (.obj [("username", .str "alice")]),
             entitlements := ents, enrollments := enrs,
             verificationStatus := some vs },
       log1 ++ [entitlementsUrl lms "alice", enrollmentsUrl lms "alice",
                verificationStatusUrl lms "alice"]) := by
  simp [getAllUserData, hu, isNull, jsGetField, jsToString, getEntitlements,
        getEnrollments, getUserVerificationStatus, hent, henr, hver]

def netC5w : Net := fun url =>
  if url == accountsUrl "L" ++ "/alice" then
    .ok (.obj [("username", .str "alice")])
  else if url == entitlementsUrl "L" "alice" then .ok (.arr [.str "ent"])
  else if url == enrollmentsUrl "L" "alice" then .ok (.arr [.str "enr"])
  else if url == verificationStatusUrl "L" "alice" then
    .ok (.obj [("status", .str "approved")])
  else .ok .null

theorem getAllUserData_success_three_lookups_witness :
    getAllUserData "L" netC5w "alice" =
      (.ok { errors := [],
             user := some (.obj [("username", .str "alice")]),
             entitlements := .arr [.str "ent"],
             enrollments := .arr [.str "enr"],
             verificationStatus := some (.obj [("status", .str "approved")]) },
       [accountsUrl "L" ++ "/alice"] ++
         [entitlementsUrl "L" "alice", enrollmentsUrl "L" "alice",
          verificationStatusUrl "L" "alice"]) :=
  getAllUserData_success_three_lookups "L" netC5w "alice"
    [accountsUrl "L" ++ "/alice"] (.arr [.str "ent"]) (.arr [.str "enr"])
    (.obj [("status", .str "approved")]) rfl rfl rfl rfl

/-- Claim C9: `patchEntitlement` and `postEntitlement` never raise: any
remote failure — a 400 or any other status, the distinction only gating
diagnostic logging — resolves to an object whose errors array holds
exactly one descriptor with topic `entitlements` and type `danger`. -/
theorem entitlement_mutations_never_raise (lms : String) (send : NetSend)
    (uuid : String)
    (action unenrolledRun comments user courseUuid mode action2 comments2 : JsValue)
    (e1 e2 : HttpError)
    (hp : send (patchEntitlementUrl lms uuid)
      (patchEntitlementBody action unenrolledRun comments) = .error e1)
    (hq : send (postEntitlementUrl lms)
      (postEntitlementBody user courseUuid mode action2 comments2) = .error e2) :
    (∃ d, patchEntitlement lms send uuid action unenrolledRun comments =
        .errors [d] ∧ d.topic = "entitlements" ∧ d.type = "danger") ∧
    (∃ d, postEntitlement lms send user courseUuid mode action2 comments2 =
        .errors [d] ∧ d.topic = "entitlements" ∧ d.type = "danger") := by
  constructor
  · have h1 : patchEntitlement lms send uuid action unenrolledRun comments =
        .errors [
          { code := none, dismissible := true,
            text := "There was an error submitting this entitlement. Check the JavaScript console for detailed errors.",
            type := "danger", topic := "entitlements" }] := by
      simp [patchEntitlement, hp]
    exact ⟨_, h1, rfl, rfl⟩
  · have h2 : postEntitlement lms send user courseUuid mode action2 comments2 =
        .errors [
          { code := none, dismissible := true,
            text := "There was an error submitting this entitlement. Check the JavaScript console for detailed errors.",
            type := "danger", topic := "entitlements" }] := by
      simp [postEntitlement, hq]
    exact ⟨_, h2, rfl, rfl⟩

def sendC9w : NetSend := fun _ _ =>
  .error { httpErrorStatus := 400, httpErrorResponseData := "" }

theorem entitlement_mutations_never_raise_witness :
    (∃ d, patchEntitlement "L" sendC9w "u1" .null .null .null =
        .errors [d] ∧ d.topic = "entitlements" ∧ d.type = "danger") ∧
    (∃ d, postEntitlement "L" sendC9w (.str "bob") (.str "c") (.str "m")
        .null .null = .errors [d] ∧ d.topic = "entitlements" ∧
        d.type = "danger") :=
  entitlement_mutations_never_raise "L" sendC9w "u1" .null .null .null
    (.str "bob") (.str "c") (.str "m") .null .null
    { httpErrorStatus := 400, httpErrorResponseData := "" }
    { httpErrorStatus := 400, httpErrorResponseData := "" } rfl rfl

/-- Claim C10: every ErrorDescriptor constructed anywhere in the module —
by `getUser`, `getRetirement`, `getCourseData`, `patchEntitlement`,
`postEntitlement` or `postEnrollmentChange` — has `code` null,
`dismissible` true, `type` in {error, danger} and `topic` in {general,
entitlements, enrollments, course-summary}; and the descriptor of a failed
`postEnrollmentChange` has topic `enrollments` (despite its text speaking
of "this entitlement"). -/
theorem descriptor_invariant :
    (∀ (lms : String) (net : Net) (userIdentifier : String),
      (lookupErrorDescriptors (getUser lms net userIdentifier).1).all
        descriptorOk = true) ∧
    (∀ (lms : String) (net : Net) (username : String),
      (retirementDescriptors (getRetirement lms net username).1).all
        descriptorOk = true) ∧
    (∀ (discovery : String) (net : Net) (courseUUID : String),
      (apiResultDescriptors (getCourseData discovery net courseUUID).1).all
        descriptorOk = true) ∧
    (∀ (lms : String) (send : NetSend) (uuid : String)
        (action unenrolledRun comments : JsValue),
      (apiResultDescriptors
        (patchEntitlement lms send uuid action unenrolledRun comments)).all
        descriptorOk = true) ∧
    (∀ (lms : String) (send : NetSend)
        (user courseUuid mode action comments : JsValue),
      (apiResultDescriptors
        (postEntitlement lms send user courseUuid mode action comments)).all
        descriptorOk = true) ∧
    (∀ (lms : String) (send : NetSend) (user : String)
        (courseID newMode oldMode reason : JsValue),
      (apiResultDescriptors
        (postEnrollmentChange lms send user courseID newMode oldMode
          reason)).all descriptorOk = true ∧
      (apiResultDescriptors
        (postEnrollmentChange lms send user courseID newMode oldMode
          reason)).all (fun d => d.topic == "enrollments") = true) := by
  refine ⟨?_, ?_, ?_, ?_, ?_, ?_⟩
  · intro lms net userIdentifier
    unfold getUser
    by_cases he : emailMatch userIdentifier = true <;>
      by_cases hu : usernameMatch userIdentifier = true <;>
        simp only [he, hu, if_true, if_false, Bool.false_eq_true] <;>
        first
        | rfl
        | (unfold getUserFetch
           rcases h : net _ with e | v
           · by_cases h4 : e.httpErrorStatus = 404 <;>
               simp [h4, lookupErrorDescriptors, descriptorOk]
           · simp [lookupErrorDescriptors])
  · intro lms net username
    unfold getRetirement
    rcases h : net (retirementUrl lms username) with e | v
    · by_cases h4 : e.httpErrorStatus = 404 <;>
        simp [h4, retirementDescriptors, descriptorOk]
    · simp [retirementDescriptors, descriptorOk]
  · intro discovery net courseUUID
    unfold getCourseData
    rcases h : net (courseUrl discovery courseUUID) with e | v
    · by_cases h4 : e.httpErrorStatus = 404 <;>
        simp [h4, apiResultDescriptors, descriptorOk]
    · simp [apiResultDescriptors]
  · intro lms send uuid action unenrolledRun comments
    unfold patchEntitlement
    rcases h : send (patchEntitlementUrl lms uuid)
        (patchEntitlementBody action unenrolledRun comments) with e | v
    · simp [apiResultDescriptors, descriptorOk]
    · simp [apiResultDescriptors]
  · intro lms send user courseUuid mode action comments
    unfold postEntitlement
    rcases h : send (postEntitlementUrl lms)
        (postEntitlementBody user courseUuid mode action comments) with e | v
    · simp [apiResultDescriptors, descriptorOk]
    · simp [apiResultDescriptors]
  · intro lms send user courseID newMode oldMode reason
    unfold postEnrollmentChange
    rcases h : send (postEnrollmentChangeUrl lms user)
        (postEnrollmentChangeBody courseID newMode oldMode reason) with e | v
    · constructor <;> simp [apiResultDescriptors, descriptorOk]
    · constructor <;> simp [apiResultDescriptors]

end Api
